import Mathlib

/-!
Verification of the core pipeline of the Santorini Earthquake Monitor
(`src/app.py`): HTML table extraction, record construction via a pandas
DataFrame, the Santorini/shallow-depth domain filter, timestamp/magnitude
parsing and the degree-2 polynomial trend fit.  Machine integers and
floating-point numbers of the source are modelled by `Nat` and `ℚ`;
fallible steps return `Option`/`Except`.
-/

set_option autoImplicit false

namespace Santorini

/-! ### HTML cells and tables

A table cell is either a data cell (`td`) or a header cell (`th`), carrying
its (already whitespace-stripped, as by `get_text(strip=True)`) text.  A
table is a list of rows (`tr` elements), each a list of cells.
-/

inductive CellTag where
  | td
  | th
deriving DecidableEq, Repr

structure HCell where
  tag : CellTag
  text : String
deriving DecidableEq, Repr

/-- `row.find_all('td')` followed by `get_text`: the texts of the data
cells of a row, in order (`app.py` line 43). -/
def rowCells (row : List HCell) : List String :=
  (row.filter (fun c => c.tag == CellTag.td)).map (fun c => c.text)

/-- The row-collection loop of `fetch_data` (`app.py` lines 41-45):
`for row in table.find_all('tr')[1:]`, append the row's `td` texts when
non-empty.  Modelled as the very loop, a left fold over the rows after the
first one. -/
def extractData (table : List (List HCell)) : List (List String) :=
  (table.drop 1).foldl
    (fun data row => if (rowCells row).isEmpty then data else data ++ [rowCells row])
    []

/-! ### Numeric cell parsing

`parseNumeric` models both Python's `float(·)` (used by
`astype(float)`, `app.py` line 69) and `pandas.to_numeric(·, errors='coerce')`
(`app.py` line 61) on one cell: an optional sign, a decimal mantissa with an
optional fractional part, and an optional decimal exponent, surrounded by
optional whitespace.  Strings outside this grammar — including the
non-finite literals `nan`/`inf`, which have no counterpart in `ℚ` — are
mapped to `none` (coercion to NaN, which every strict comparison
rejects). -/

def digitsToNat (ds : List Char) : Nat :=
  ds.foldl (fun n c => 10 * n + (c.toNat - 48)) 0

def parseExponent (cs : List Char) : Option Int :=
  let (sgn, rest) : Int × List Char :=
    match cs with
    | '-' :: t => (-1, t)
    | '+' :: t => (1, t)
    | _ => (1, cs)
  if rest.isEmpty then none
  else if rest.all Char.isDigit then some (sgn * (digitsToNat rest : Int))
  else none

def parseMantissa (cs : List Char) : Option (ℚ × List Char) :=
  let intPart := cs.takeWhile Char.isDigit
  let rest := cs.dropWhile Char.isDigit
  let (fracPart, rest') : List Char × List Char :=
    match rest with
    | '.' :: t => (t.takeWhile Char.isDigit, t.dropWhile Char.isDigit)
    | _ => ([], rest)
  if intPart.isEmpty && fracPart.isEmpty then none
  else if fracPart.isEmpty then some ((digitsToNat intPart : ℚ), rest')
  else some ((digitsToNat (intPart ++ fracPart) : ℚ) / (10 ^ fracPart.length : ℚ), rest')

def parseNumericCore (cs : List Char) : Option ℚ :=
  let (neg, rest) : Bool × List Char :=
    match cs with
    | '-' :: t => (true, t)
    | '+' :: t => (false, t)
    | _ => (false, cs)
  match parseMantissa rest with
  | none => none
  | some (m, after) =>
    match after with
    | [] => some (if neg then -m else m)
    | 'e' :: t => (parseExponent t).map (fun e => (if neg then -m else m) * (10 : ℚ) ^ e)
    | 'E' :: t => (parseExponent t).map (fun e => (if neg then -m else m) * (10 : ℚ) ^ e)
    | _ => none

def parseNumeric (s : String) : Option ℚ :=
  parseNumericCore ((s.toList.dropWhile Char.isWhitespace).reverse.dropWhile
    Char.isWhitespace).reverse

/-! ### The pandas DataFrame construction

`pd.DataFrame([row[2:] for row in data], columns=expected_columns)`
(`app.py` line 52).  pandas turns a non-empty list of lists into a
rectangular object array whose width is the longest row; shorter rows are
padded with missing values (`None`/NaN).  If that width differs from the
number of passed column labels it raises (hard stop, uncaught by
`fetch_data`, whose `try` block only covers the HTTP request).  A cell is
`Option String`, `none` being a missing (NaN) cell.
-/

def expected_columns : List String :=
  ["Origin Time (GMT)", "Epicenter", "Latitude", "Longitude", "Depth (km)", "Magnitude"]

def maxLen (data : List (List String)) : Nat :=
  (data.map List.length).foldr max 0

def padTo (w : Nat) (r : List String) : List (Option String) :=
  r.map some ++ List.replicate (w - r.length) none

structure DF where
  ncols : Nat
  rows : List (List (Option String))
deriving DecidableEq, Repr

/-- `pd.DataFrame(data, columns=cols)` for a non-empty list of string rows:
width is the longest row, short rows are padded with missing cells, and a
width different from `cols.length` raises. -/
def mkDataFrame (data : List (List String)) (cols : List String) : Except Unit DF :=
  if maxLen data = cols.length then
    Except.ok ⟨maxLen data, data.map (padTo (maxLen data))⟩
  else Except.error ()

/-- `df.iloc[:, :n]` (`app.py` line 53): keep the first `n` columns. -/
def trimDF (df : DF) (n : Nat) : DF :=
  ⟨min df.ncols n, df.rows.map (fun r => r.take n)⟩

/-! ### The domain filter (`app.py` lines 60-61) -/

/-- Case-sensitive check that `pat` occurs as a contiguous run at the head
of `hay`. -/
def leadsWith : List Char → List Char → Bool
  | _, [] => true
  | [], _ :: _ => false
  | a :: t, b :: u => a == b && leadsWith t u

/-- Case-sensitive substring containment on character lists. -/
def containsSeq : List Char → List Char → Bool
  | [], pat => pat.isEmpty
  | a :: t, pat => leadsWith (a :: t) pat || containsSeq t pat

/-- `hay.contains(pat)` of `pandas.Series.str` for a plain (regex-free)
pattern: case-sensitive substring test. -/
def strContains (hay pat : String) : Bool :=
  containsSeq hay.toList pat.toList

/-- The configured location token of `app.py` line 60. -/
def locationToken : String := "Θήρας"

/-- The configured depth threshold of `app.py` line 61. -/
def maxDepthKm : ℚ := 100

/-- Column projection `df['Epicenter']` on one row (column index 1 of
`expected_columns`). -/
def epiCell (r : List (Option String)) : Option String :=
  r.getD 1 none

/-- Column projection `df['Depth (km)']` on one row (column index 4 of
`expected_columns`). -/
def depthCell (r : List (Option String)) : Option String :=
  r.getD 4 none

/-- `df['Epicenter'].str.contains('Θήρας', na=False)` on one row: a missing
cell is `False` (`na=False`). -/
def epiPred (r : List (Option String)) : Bool :=
  match epiCell r with
  | some s => strContains s locationToken
  | none => false

/-- `pd.to_numeric(df['Depth (km)'], errors='coerce') < 100` on one row:
an unparsable or missing depth coerces to NaN, and `NaN < 100` is
`False`. -/
def depthPred (r : List (Option String)) : Bool :=
  match (depthCell r).bind parseNumeric with
  | some d => decide (d < maxDepthKm)
  | none => false

/-- The two boolean-mask filters of `app.py` lines 60-61, applied in
sequence. -/
def santoriniFilter (rows : List (List (Option String))) : List (List (Option String)) :=
  (rows.filter epiPred).filter depthPred

/-! ### The `fetch_data` pipeline after the HTTP fetch (`app.py` lines 35-63) -/

inductive FetchErr where
  | shapeError        -- line 36-38: fewer than 3 tables on the page
  | noData            -- line 47-49: extracted table had no data rows
  | pdValueError      -- line 52: DataFrame width differs from the 6 labels
  | unexpectedFormat  -- line 55-57: the post-trim column-count check
deriving DecidableEq, Repr

/-- `fetch_data` from the parsed document on (`app.py` lines 41-63), for a
fixed table already selected: row extraction, the emptiness guard, the
DataFrame construction with the 2-column offset, the trim, the column-count
check, and the two domain filters. -/
def processTable (table : List (List HCell)) : Except FetchErr (List (List (Option String))) :=
  if (extractData table).isEmpty then Except.error FetchErr.noData
  else
    match mkDataFrame ((extractData table).map (List.drop 2)) expected_columns with
    | Except.error _ => Except.error FetchErr.pdValueError
    | Except.ok df =>
      if (trimDF df expected_columns.length).ncols ≠ expected_columns.length then
        Except.error FetchErr.unexpectedFormat
      else Except.ok (santoriniFilter (trimDF df expected_columns.length).rows)

/-- `fetch_data` from the table list on (`app.py` lines 35-63):
`soup.find_all('table')`, the `len(tables) < 3` guard, then `tables[2]`. -/
def fetch_data (tables : List (List (List HCell))) : Except FetchErr (List (List (Option String))) :=
  if tables.length < 3 then Except.error FetchErr.shapeError
  else processTable (tables.getD 2 [])

/-! ### Timestamp parsing (`app.py` line 68)

`datetime.strptime(ts, '%d/%m/%Y %H:%M:%S')`: day and month are one or two
digits, the year exactly four digits, and the resulting calendar datetime
must be valid (CPython's `datetime` constructor validates ranges, the day
against the month's length, and `year ≥ 1`).  The whole string must be
consumed.  No timezone conversion takes place. -/

structure PyDateTime where
  year : Nat
  month : Nat
  day : Nat
  hour : Nat
  minute : Nat
  second : Nat
deriving DecidableEq, Repr

def isLeapYear (y : Nat) : Bool :=
  (y % 4 == 0 && y % 100 != 0) || y % 400 == 0

def daysInMonth (y m : Nat) : Nat :=
  if m = 2 then (if isLeapYear y then 29 else 28)
  else if m = 4 ∨ m = 6 ∨ m = 9 ∨ m = 11 then 30
  else 31

def digitVal (c : Char) : Nat := c.toNat - 48

/-- Read one or two digits (greedily two), as `strptime`'s `%d`/`%m`/`%H`/
`%M`/`%S` directives do. -/
def read2 (cs : List Char) : Option (Nat × List Char) :=
  match cs with
  | a :: b :: t =>
    if a.isDigit then
      if b.isDigit then some (digitVal a * 10 + digitVal b, t)
      else some (digitVal a, b :: t)
    else none
  | [a] => if a.isDigit then some (digitVal a, []) else none
  | [] => none

/-- Read exactly four digits, as `strptime`'s `%Y` does. -/
def read4 (cs : List Char) : Option (Nat × List Char) :=
  match cs with
  | a :: b :: c :: d :: t =>
    if a.isDigit && b.isDigit && c.isDigit && d.isDigit then
      some (((digitVal a * 10 + digitVal b) * 10 + digitVal c) * 10 + digitVal d, t)
    else none
  | _ => none

def expectCh (c : Char) (cs : List Char) : Option (List Char) :=
  match cs with
  | a :: t => if a == c then some t else none
  | [] => none

/-- `datetime.strptime(s, '%d/%m/%Y %H:%M:%S')`, returning `none` where
CPython raises `ValueError`. -/
def parseTimestamp (s : String) : Option PyDateTime := do
  let cs := s.toList
  let (d, cs) ← read2 cs
  let cs ← expectCh '/' cs
  let (m, cs) ← read2 cs
  let cs ← expectCh '/' cs
  let (y, cs) ← read4 cs
  let cs ← expectCh ' ' cs
  let (hh, cs) ← read2 cs
  let cs ← expectCh ':' cs
  let (mi, cs) ← read2 cs
  let cs ← expectCh ':' cs
  let (ss, cs) ← read2 cs
  if cs.isEmpty && 1 ≤ y && 1 ≤ m && m ≤ 12 && 1 ≤ d && d ≤ daysInMonth y m
      && hh ≤ 23 && mi ≤ 59 && ss ≤ 59 then
    pure ⟨y, m, d, hh, mi, ss⟩
  else none

/-! ### The data-preparation block of `generate_plot` (`app.py` lines 67-72)

The `try` block builds the full timestamp array by a list comprehension over
`df['Origin Time (GMT)']` and then converts `df['Magnitude']` with
`astype(float)`; any `ValueError`/`TypeError` from either conversion is
caught and the whole call returns `None` — no partial series survives. -/

/-- Column projection `df['Origin Time (GMT)']` on one row (column index 0),
fed to `strptime`. -/
def timeVal (r : List (Option String)) : Option PyDateTime :=
  (r.getD 0 none).bind parseTimestamp

/-- Column projection `df['Magnitude']` on one row (column index 5), fed to
`float(·)` by `astype(float)`. -/
def magVal (r : List (Option String)) : Option ℚ :=
  (r.getD 5 none).bind parseNumeric

/-- Turn a list of optional values into an optional list: `none` as soon as
any element is `none` (the first exception aborts the comprehension). -/
def seqOpt {α : Type} : List (Option α) → Option (List α)
  | [] => some []
  | none :: _ => none
  | some a :: t =>
    match seqOpt t with
    | some l => some (a :: l)
    | none => none

/-- `app.py` lines 67-72: the timestamp and magnitude series, or `none`
when any cell of either column fails to convert. -/
def processData (rows : List (List (Option String))) : Option (List PyDateTime × List ℚ) :=
  match seqOpt (rows.map timeVal), seqOpt (rows.map magVal) with
  | some ts, some ms => some (ts, ms)
  | _, _ => none

/-! ### The quadratic trend fit (`app.py` lines 74-75)

`np.polyfit(range(n), magnitude, 2)` computes the degree-2 least-squares
fit; it is modelled in exact rational arithmetic through the normal
equations, solved by Cramer's rule.  When the normal matrix is singular
(which for distinct sample positions `0..n-1` happens exactly when `n < 3`)
numpy does not raise: it emits a `RankWarning` and falls back to an
SVD-based minimum-norm solution; that degenerate branch is modelled as
`none`.  `np.polyfit` raises `TypeError` on an empty vector (`n = 0`),
which also lands in `none`. -/

def det3 (a b c d e f g h i : ℚ) : ℚ :=
  a * (e * i - f * h) - b * (d * i - f * g) + c * (d * h - e * g)

/-- `np.polyfit(range(ys.length), ys, 2)`: coefficients `(a, b, c)` of the
least-squares `a·x² + b·x + c`, via the normal equations. -/
def polyfitDeg2 (ys : List ℚ) : Option (ℚ × ℚ × ℚ) :=
  let n := ys.length
  let xs : List ℚ := (List.range n).map (fun i => (i : ℚ))
  let ps := xs.zip ys
  let s1 := xs.sum
  let s2 := (xs.map (fun x => x ^ 2)).sum
  let s3 := (xs.map (fun x => x ^ 3)).sum
  let s4 := (xs.map (fun x => x ^ 4)).sum
  let t0 := ys.sum
  let t1 := (ps.map (fun p => p.1 * p.2)).sum
  let t2 := (ps.map (fun p => p.1 ^ 2 * p.2)).sum
  let dd := det3 s4 s3 s2 s3 s2 s1 s2 s1 (n : ℚ)
  if dd = 0 then none
  else
    some (det3 t2 s3 s2 t1 s2 s1 t0 s1 (n : ℚ) / dd,
          det3 s4 t2 s2 s3 t1 s1 s2 t0 (n : ℚ) / dd,
          det3 s4 s3 t2 s3 s2 t1 s2 s1 t0 / dd)

/-- `np.poly1d(coefficients)(range(len(time)))` (`app.py` line 75): the
fitted polynomial evaluated at positions `0..n-1`. -/
def quadraticTrend (ys : List ℚ) : Option (List ℚ) :=
  (polyfitDeg2 ys).map
    (fun abc => (List.range ys.length).map
      (fun i => abc.1 * (i : ℚ) ^ 2 + abc.2.1 * (i : ℚ) + abc.2.2))

/-! ### Helper lemmas -/

deriving instance DecidableEq for Except

theorem maxLen_cons (r : List String) (t : List (List String)) :
    maxLen (r :: t) = max r.length (maxLen t) := rfl

theorem maxLen_lt_iff (data : List (List String)) (k : Nat) (hk : 0 < k) :
    maxLen data < k ↔ ∀ r ∈ data, r.length < k := by
  induction data with
  | nil => simpa [maxLen] using hk
  | cons r t ih => simp [maxLen_cons, Nat.max_lt, ih]

theorem lt_maxLen_iff (data : List (List String)) (k : Nat) :
    k < maxLen data ↔ ∃ r ∈ data, k < r.length := by
  induction data with
  | nil => simp [maxLen]
  | cons r t ih => simp [maxLen_cons, lt_max_iff, ih]

theorem mkDataFrame_ok_ncols {data : List (List String)} {cols : List String} {df : DF}
    (h : mkDataFrame data cols = Except.ok df) : df.ncols = cols.length := by
  unfold mkDataFrame at h
  split at h
  · next heq =>
    injection h with h2
    rw [← h2]
    exact heq
  · cases h

theorem mkDataFrame_ok_rows {data : List (List String)} {cols : List String} {df : DF}
    (h : mkDataFrame data cols = Except.ok df) :
    df.rows = data.map (padTo (maxLen data)) := by
  unfold mkDataFrame at h
  split at h
  · injection h with h2
    rw [← h2]
  · cases h

theorem seqOpt_eq_none_iff {α : Type} (l : List (Option α)) :
    seqOpt l = none ↔ ∃ o ∈ l, o = none := by
  induction l with
  | nil => simp [seqOpt]
  | cons o t ih =>
    cases o with
    | none => simp [seqOpt]
    | some a =>
      cases ht : seqOpt t with
      | none =>
        simp only [seqOpt, ht]
        simp
        obtain ⟨o, hm, ho⟩ := ih.mp ht
        exact ho ▸ hm
      | some xs =>
        simp only [seqOpt, ht]
        simp
        intro hn
        rw [ih.mpr ⟨none, hn, rfl⟩] at ht
        cases ht

theorem seqOpt_some_length {α : Type} {l : List (Option α)} {xs : List α}
    (h : seqOpt l = some xs) : xs.length = l.length := by
  induction l generalizing xs with
  | nil => cases h; rfl
  | cons o t ih =>
    cases o with
    | none => cases h
    | some a =>
      cases ht : seqOpt t with
      | none => rw [seqOpt, ht] at h; cases h
      | some ys =>
        rw [seqOpt, ht] at h
        injection h with h2
        rw [← h2]
        simpa using ih ht

theorem extractLoop_eq (rows : List (List HCell)) (acc : List (List String)) :
    rows.foldl
        (fun data row => if (rowCells row).isEmpty then data else data ++ [rowCells row]) acc
      = acc ++ (rows.map rowCells).filter (fun r => !r.isEmpty) := by
  induction rows generalizing acc with
  | nil => simp
  | cons r t ih =>
    simp only [List.foldl_cons, List.map_cons, List.filter_cons]
    by_cases h : (rowCells r).isEmpty
    · rw [if_pos h, ih]
      simp [h]
    · rw [if_neg h, ih]
      simp [h, List.append_assoc]

theorem mkDataFrame_error_iff (d : List (List String)) (cols : List String) :
    mkDataFrame d cols = Except.error () ↔ maxLen d ≠ cols.length := by
  unfold mkDataFrame
  split
  · next h => simp [h]
  · next h => simp [h]

/-! ### Claims -/

/-- C7: for every document with fewer tables than `table_index + 1 = 3`,
`fetch_data` stops with the shape error of `app.py` lines 36-38 and returns
no partial result: no raw table is extracted, no records and no fitted
curve are produced downstream. -/
theorem c7_shape_error (tables : List (List (List HCell))) (h : tables.length < 3) :
    fetch_data tables = Except.error FetchErr.shapeError := by
  simp [fetch_data, h]

theorem c7_witness : fetch_data [[], []] = Except.error FetchErr.shapeError :=
  c7_shape_error [[], []] (by decide)

/-- C10: whenever the DataFrame of `app.py` line 52 is built successfully,
its column count already equals the six expected labels, the trim of line
53 keeps it there, and the `df.shape[1] != len(expected_columns)` branch of
lines 55-57 can never fire: `processTable` never returns that error. -/
theorem c10_column_check_unreachable :
    (∀ (data : List (List String)) (df : DF),
        mkDataFrame (data.map (List.drop 2)) expected_columns = Except.ok df →
        (trimDF df expected_columns.length).ncols = expected_columns.length) ∧
    ∀ table : List (List HCell), processTable table ≠ Except.error FetchErr.unexpectedFormat := by
  have key : ∀ (data : List (List String)) (df : DF),
      mkDataFrame (data.map (List.drop 2)) expected_columns = Except.ok df →
      (trimDF df expected_columns.length).ncols = expected_columns.length := by
    intro data df h
    have := mkDataFrame_ok_ncols h
    simp [trimDF, this]
  refine ⟨key, ?_⟩
  intro table hcontra
  unfold processTable at hcontra
  split at hcontra
  · simp at hcontra
  · split at hcontra
    · simp at hcontra
    · next df heq =>
      split at hcontra
      · next hne => exact hne (key _ _ heq)
      · simp at hcontra

theorem c10_witness :
    (trimDF ⟨6, [[some "t", some "e", some "la", some "lo", some "d", some "m"]]⟩
        expected_columns.length).ncols = expected_columns.length :=
  c10_column_check_unreachable.1 [["n", "r", "t", "e", "la", "lo", "d", "m"]]
    ⟨6, [[some "t", some "e", some "la", some "lo", some "d", some "m"]]⟩ (by rfl)

/-- C5: a record whose depth cell does not parse as a number is coerced to
missing by `pd.to_numeric(..., errors='coerce')` and is then excluded by
the depth mask of `app.py` line 61, whatever its magnitude and epicenter;
the filter itself is a total function, so the batch never fails on an
unparsable depth. -/
theorem c5_unparsable_depth_excluded (rows : List (List (Option String)))
    (r : List (Option String)) (h : (depthCell r).bind parseNumeric = none) :
    r ∉ santoriniFilter rows := by
  intro hmem
  have hd : depthPred r = true := List.of_mem_filter hmem
  rw [depthPred, h] at hd
  cases hd

theorem c5_witness :
    [some "10/05/2024 12:00:00", some "Θήρας", some "36.4", some "25.4",
        some "N/A", some "3.1"] ∉
      santoriniFilter [[some "10/05/2024 12:00:00", some "Θήρας", some "36.4",
        some "25.4", some "N/A", some "3.1"]] :=
  c5_unparsable_depth_excluded _ _ (by decide)

/-- C9: the domain filter of `app.py` lines 60-61 is idempotent — filtering
an already-filtered series with the same location token and depth threshold
returns it unchanged. -/
theorem c9_filter_idempotent (rows : List (List (Option String))) :
    santoriniFilter (santoriniFilter rows) = santoriniFilter rows := by
  have he : ∀ x ∈ santoriniFilter rows, epiPred x = true := by
    intro x hx
    exact List.of_mem_filter (List.mem_of_mem_filter hx)
  have hd : ∀ x ∈ santoriniFilter rows, depthPred x = true := by
    intro x hx
    exact List.of_mem_filter hx
  show ((santoriniFilter rows).filter epiPred).filter depthPred = santoriniFilter rows
  rw [List.filter_eq_self.mpr he, List.filter_eq_self.mpr hd]

/-- C1: a record appears in the output of the domain filter of `app.py`
lines 60-61 exactly when it is an input record whose epicenter cell
contains the token `Θήρας` as a case-sensitive substring and whose depth
cell parses to a number strictly below 100; and the output is a sublist of
the input, so the relative order is preserved with no re-sorting. -/
theorem c1_domain_filter (rows : List (List (Option String))) :
    (santoriniFilter rows).Sublist rows ∧
    ∀ r, r ∈ santoriniFilter rows ↔
      r ∈ rows ∧
      (∃ s, epiCell r = some s ∧ strContains s locationToken = true) ∧
      ∃ d, (depthCell r).bind parseNumeric = some d ∧ d < maxDepthKm := by
  constructor
  · exact (List.filter_sublist _).trans (List.filter_sublist _)
  · intro r
    have hepi : epiPred r = true ↔
        ∃ s, epiCell r = some s ∧ strContains s locationToken = true := by
      unfold epiPred
      cases h : epiCell r with
      | none => simp
      | some s => simp
    have hdep : depthPred r = true ↔
        ∃ d, (depthCell r).bind parseNumeric = some d ∧ d < maxDepthKm := by
      unfold depthPred
      cases h : (depthCell r).bind parseNumeric with
      | none => simp
      | some d => simp
    simp only [santoriniFilter, List.mem_filter]
    constructor
    · rintro ⟨⟨hm, he⟩, hd⟩
      exact ⟨hm, hepi.mp he, hdep.mp hd⟩
    · rintro ⟨hm, he, hd⟩
      exact ⟨⟨hm, hepi.mpr he⟩, hdep.mpr hd⟩

/-- C2 counterexample: the row loop of `app.py` line 42 iterates over
`table.find_all('tr')[1:]`, skipping the first row unconditionally.  For a
table whose only row is an ordinary data row (one `td` cell with text
`"x"`), that row is a non-empty data row, yet the extractor's output is
empty — the claim says it should still contribute the row. -/
theorem c2_counterexample :
    rowCells [⟨CellTag.td, "x"⟩] = ["x"] ∧
    extractData [[⟨CellTag.td, "x"⟩]] = [] := by
  decide

/-- C2 amended: the extractor's output consists of exactly the rows AFTER
THE FIRST ROW that contain data (`td`) cells, in document order, with
empty rows dropped; the first row is skipped unconditionally — whether or
not it is a header — so a table whose first row is an ordinary data row
loses that row. -/
theorem c2_rows_after_first (table : List (List HCell)) :
    extractData table = ((table.drop 1).map rowCells).filter (fun r => !r.isEmpty) := by
  unfold extractData
  rw [extractLoop_eq]
  rfl

/-- C3 counterexample: one row with five cells after the 2-column offset
(against six expected fields) does not stop the batch: pandas pads the
short row with a missing cell and `fetch_data` returns a record list —
contradicting the claim that any row with a wrong cell count after offset
hard-fails the whole batch with no record list returned. -/
theorem c3_counterexample :
    ((["2", "ATH", "11/05/2024 12:00:00", "Θήρας", "36.4", "25.4", "7"] :
        List String).drop 2).length ≠ expected_columns.length ∧
    processTable
        [[⟨CellTag.th, "h"⟩],
         [⟨CellTag.td, "1"⟩, ⟨CellTag.td, "ATH"⟩, ⟨CellTag.td, "10/05/2024 12:00:00"⟩,
          ⟨CellTag.td, "Θήρας"⟩, ⟨CellTag.td, "36.4"⟩, ⟨CellTag.td, "25.4"⟩,
          ⟨CellTag.td, "5"⟩, ⟨CellTag.td, "3.1"⟩],
         [⟨CellTag.td, "2"⟩, ⟨CellTag.td, "ATH"⟩, ⟨CellTag.td, "11/05/2024 12:00:00"⟩,
          ⟨CellTag.td, "Θήρας"⟩, ⟨CellTag.td, "36.4"⟩, ⟨CellTag.td, "25.4"⟩,
          ⟨CellTag.td, "7"⟩]] =
      Except.ok
        [[some "10/05/2024 12:00:00", some "Θήρας", some "36.4", some "25.4",
          some "5", some "3.1"],
         [some "11/05/2024 12:00:00", some "Θήρας", some "36.4", some "25.4",
          some "7", none]] := by
  refine ⟨by decide, ?_⟩
  decide

/-- C3 amended: the batch construction of `app.py` line 52 hard-fails
(an uncaught pandas error, no record list) exactly when some row has MORE
than six cells after the 2-column offset or EVERY row has fewer than six
— i.e. when the width of the batch, the longest row after offset, differs
from six.  A row shorter than the batch width is padded with missing cells
rather than rejected, and on success every input row yields a record. -/
theorem c3_batch_failure_iff (data : List (List String)) :
    (mkDataFrame (data.map (List.drop 2)) expected_columns = Except.error () ↔
      (∃ r ∈ data, expected_columns.length < (List.drop 2 r).length) ∨
      ∀ r ∈ data, (List.drop 2 r).length < expected_columns.length) ∧
    ∀ df : DF, mkDataFrame (data.map (List.drop 2)) expected_columns = Except.ok df →
      df.rows.length = data.length := by
  constructor
  · rw [mkDataFrame_error_iff]
    have hlt := maxLen_lt_iff (data.map (List.drop 2)) expected_columns.length (by decide)
    have hgt := lt_maxLen_iff (data.map (List.drop 2)) expected_columns.length
    constructor
    · intro hne
      rcases Nat.lt_or_ge (maxLen (data.map (List.drop 2))) expected_columns.length with hl | hg
      · right
        intro r hr
        exact (hlt.mp hl) _ (List.mem_map_of_mem _ hr)
      · left
        have hstrict : expected_columns.length < maxLen (data.map (List.drop 2)) :=
          lt_of_le_of_ne hg (Ne.symm hne)
        obtain ⟨r', hr', hlen⟩ := hgt.mp hstrict
        obtain ⟨r, hr, rfl⟩ := List.mem_map.mp hr'
        exact ⟨r, hr, hlen⟩
    · intro h
      rcases h with ⟨r, hr, hlen⟩ | hall
      · exact ne_of_gt (hgt.mpr ⟨_, List.mem_map_of_mem _ hr, hlen⟩)
      · refine ne_of_lt (hlt.mpr ?_)
        intro r' hr'
        obtain ⟨r, hr, rfl⟩ := List.mem_map.mp hr'
        exact hall r hr
  · intro df h
    rw [mkDataFrame_ok_rows h]
    simp

theorem c3_witness :
    mkDataFrame ([["a", "b", "c", "d", "e", "f", "g", "h", "i"]].map (List.drop 2))
        expected_columns = Except.error () :=
  (c3_batch_failure_iff [["a", "b", "c", "d", "e", "f", "g", "h", "i"]]).1.mpr
    (Or.inl ⟨["a", "b", "c", "d", "e", "f", "g", "h", "i"], by simp, by decide⟩)

/-- C6: the batch of `app.py` lines 67-72 fails as a whole (the `except`
branch returns `None`) exactly when some row's timestamp or magnitude cell
fails to convert — no row is skipped, no partial series survives — and on
success both series cover every row.  The timestamp format is
day/month/year hour:minute:second on a 24-hour clock, pinned by the two
concrete conjuncts: day 25 parses in first position and fails in second
position, and hour 13 parses. -/
theorem c6_parse_fail_fast (rows : List (List (Option String))) :
    (processData rows = none ↔ ∃ r ∈ rows, timeVal r = none ∨ magVal r = none) ∧
    (∀ ts ms, processData rows = some (ts, ms) →
      ts.length = rows.length ∧ ms.length = rows.length) ∧
    parseTimestamp "25/05/2024 13:45:10" = some ⟨2024, 5, 25, 13, 45, 10⟩ ∧
    parseTimestamp "05/25/2024 13:45:10" = none := by
  refine ⟨?_, ?_, by decide, by decide⟩
  · cases h1 : seqOpt (rows.map timeVal) with
    | none =>
      simp only [processData, h1]
      constructor
      · intro _
        obtain ⟨o, ho, hnone⟩ := (seqOpt_eq_none_iff _).mp h1
        obtain ⟨r, hr, rfl⟩ := List.mem_map.mp ho
        exact ⟨r, hr, Or.inl hnone⟩
      · intro _
        trivial
    | some ts =>
      cases h2 : seqOpt (rows.map magVal) with
      | none =>
        simp only [processData, h1, h2]
        constructor
        · intro _
          obtain ⟨o, ho, hnone⟩ := (seqOpt_eq_none_iff _).mp h2
          obtain ⟨r, hr, rfl⟩ := List.mem_map.mp ho
          exact ⟨r, hr, Or.inr hnone⟩
        · intro _
          trivial
      | some ms =>
        simp only [processData, h1, h2]
        constructor
        · intro hc
          cases hc
        · rintro ⟨r, hr, hbad | hbad⟩
          · have : seqOpt (rows.map timeVal) = none :=
              (seqOpt_eq_none_iff _).mpr ⟨_, List.mem_map_of_mem _ hr, hbad⟩
            rw [this] at h1
            cases h1
          · have : seqOpt (rows.map magVal) = none :=
              (seqOpt_eq_none_iff _).mpr ⟨_, List.mem_map_of_mem _ hr, hbad⟩
            rw [this] at h2
            cases h2
  · intro ts ms h
    cases h1 : seqOpt (rows.map timeVal) with
    | none =>
      simp only [processData, h1] at h
      cases h
    | some ts' =>
      cases h2 : seqOpt (rows.map magVal) with
      | none =>
        simp only [processData, h1, h2] at h
        cases h
      | some ms' =>
        simp only [processData, h1, h2, Option.some.injEq, Prod.mk.injEq] at h
        obtain ⟨rfl, rfl⟩ := h
        constructor
        · rw [seqOpt_some_length h1]
          simp
        · rw [seqOpt_some_length h2]
          simp

theorem c6_witness :
    processData [[some "not a timestamp", some "Θήρας", none, none, some "5",
      some "3.1"]] = none :=
  (c6_parse_fail_fast _).1.mpr
    ⟨[some "not a timestamp", some "Θήρας", none, none, some "5", some "3.1"],
      by simp, Or.inl (by decide)⟩

/-- C4: `app.py` lines 74-75 call `np.polyfit`/`np.poly1d` with no minimum
size guard, so for two filtered records — fewer than three points — the fit
is still attempted and no `InsufficientDataError` is raised (no such error
exists anywhere in the program).  At the failing input `[3, 4]` the
degree-2 normal system over the sample positions `0, 1` is singular, which
is the `none` branch of the model; numpy takes the corresponding
rank-deficient path, emitting a `RankWarning` and still returning a curve
from an SVD-based minimum-norm solution rather than failing. -/
theorem c4_fit_attempted_below_three_points : polyfitDeg2 [3, 4] = none := by
  norm_num [polyfitDeg2, det3, List.range_succ]

/-- C8: for every magnitude sequence of exactly three values, the degree-2
least-squares fit over positions 0, 1, 2 interpolates exactly: the trend
curve of `app.py` lines 74-75 reproduces the three inputs with zero
residual. -/
theorem c8_three_point_interpolation (y0 y1 y2 : ℚ) :
    quadraticTrend [y0, y1, y2] = some [y0, y1, y2] := by
  have hfit : polyfitDeg2 [y0, y1, y2] =
      some ((y0 - 2 * y1 + y2) / 2, -(3 * y0 - 4 * y1 + y2) / 2, y0) := by
    norm_num [polyfitDeg2, det3, List.range_succ]
    refine ⟨by ring, by ring, by ring⟩
  simp only [quadraticTrend, hfit, Option.map_some]
  norm_num [List.range_succ]
  exact ⟨by ring, by ring⟩

end Santorini
